import Mathlib

/-
Verification of the live-stream transcode supervisor of the camera-management
application.

The development shallowly embeds the relevant TypeScript/JavaScript code:

* the camera source resolver (cameraSchema.methods.getFullRtspUrl and
  getDefaultRtspPath, together with the mongoose schema defaults), as found in
  the camera model versions recorded in src/frontend/__tests__/auth.test.tsx;
* the stream start route handler (GET of src/app/api/stream/[id]/route.ts),
  including its JWT check, registry lookup, connection test, spawn, and the
  waitForFiles readiness poll;
* the media delivery gateway (GET of the media route), with Node's
  path.join normalization and the startsWith containment check;
* a two-thread interleaving model of the route handler's registry accesses.

JavaScript string fields that may be absent are modelled as String with ""
playing the role of the falsy absent value (undefined and "" are both falsy
in every guard the code uses); optional numbers use 0 as the falsy value,
matching the code's use of the || operator.
-/

namespace StreamSup

/-! ## Camera model

Mirrors the mongoose camera schema and its methods from the camera model
(recorded in src/frontend/__tests__/auth.test.tsx).  Fields not read by any
resolver method are omitted. -/

/-- JavaScript String.prototype.startsWith, modelled at the character-list
level: the candidate's characters are a prefix of the receiver's. -/
def jsStartsWith (s p : String) : Bool :=
  p.data.isPrefixOf s.data

/-- JavaScript String.prototype.substring(n) (equivalently dropping the
first n characters), modelled at the character-list level. -/
def jsDrop (s : String) (n : Nat) : String :=
  ⟨s.data.drop n⟩

structure Camera where
  ip_address : String
  camera_type : String
  username : String
  password : String
  rtsp_port : Nat
  rtsp_path : String
deriving Repr, DecidableEq

/-- The creation payload for a camera: fields the client may omit are
Options.  Mirrors the document passed to new Camera(data). -/
structure CameraInput where
  ip_address : String
  camera_type : Option String
  username : Option String
  password : Option String
  rtsp_port : Option Nat
  rtsp_path : Option String
deriving Repr, DecidableEq

/-- Mongoose schema defaults (auth.test.tsx lines 188-232): camera_type
defaults to "rtsp", rtsp_port to 554, rtsp_path to "/stream"; username and
password have no default (absent stays falsy, modelled ""). -/
def applySchemaDefaults (d : CameraInput) : Camera :=
  { ip_address := d.ip_address
    camera_type := d.camera_type.getD "rtsp"
    username := d.username.getD ""
    password := d.password.getD ""
    rtsp_port := d.rtsp_port.getD 554
    rtsp_path := d.rtsp_path.getD "/stream" }

/-- Decimal digits of a natural number, most significant first, as produced
by JavaScript template interpolation of an integer.  The first argument is
fuel bounding the recursion; decString passes n+1 which always suffices
(the loop divides by 10 at each step). -/
def decDigitsAux : Nat → Nat → List Char
  | 0, _ => []
  | fuel + 1, n =>
    if n < 10 then [Nat.digitChar n]
    else decDigitsAux fuel (n / 10) ++ [Nat.digitChar (n % 10)]

/-- JavaScript's rendering of a nonnegative integer in a template string. -/
def decString (n : Nat) : String :=
  ⟨decDigitsAux (n + 1) n⟩

/-- The auth segment: user:pass@ when both username and password are truthy,
otherwise empty (auth.test.tsx lines 247-248). -/
def authSegment (c : Camera) : String :=
  if c.username ≠ "" ∧ c.password ≠ "" then
    c.username ++ ":" ++ c.password ++ "@"
  else ""

/-- cameraSchema.methods.getDefaultRtspPath (auth.test.tsx lines 270-284):
the camera_type switch mapping vendor tags to default RTSP paths. -/
def getDefaultRtspPath (c : Camera) : String :=
  match c.camera_type with
  | "hikvision" => "/Streaming/Channels/101"
  | "dahua" => "/cam/realmonitor?channel=1&subtype=0"
  | "onvif" => "/onvif/stream1"
  | "ip" => "/stream1"
  | _ => if c.rtsp_path = "" then "/stream" else c.rtsp_path

/-- The effective port: this.rtsp_port || 554. -/
def effectivePort (c : Camera) : Nat :=
  if c.rtsp_port = 0 then 554 else c.rtsp_port

/-- The effective path: this.rtsp_path || this.getDefaultRtspPath(). -/
def effectivePath (c : Camera) : String :=
  if c.rtsp_path = "" then getDefaultRtspPath c else c.rtsp_path

/-- cameraSchema.methods.getFullRtspUrl, first recorded version
(auth.test.tsx lines 246-267).  When ip_address is truthy and starts with
rtsp:// the code returns it unchanged unless the auth segment is nonempty,
in which case it replaces the first occurrence of rtsp:// by rtsp:// plus
the auth segment; since the string starts with rtsp:// this first
occurrence is the 7-character prefix, so the replacement is modelled as
prefix substitution.  Otherwise the URL is constructed from parts. -/
def getFullRtspUrl (c : Camera) : String :=
  let auth := authSegment c
  if c.ip_address ≠ "" ∧ jsStartsWith c.ip_address "rtsp://" then
    if auth ≠ "" then "rtsp://" ++ auth ++ jsDrop c.ip_address 7
    else c.ip_address
  else
    "rtsp://" ++ auth ++ c.ip_address ++ ":" ++ decString (effectivePort c)
      ++ effectivePath c

/-- cameraSchema.methods.getFullRtspUrl, second recorded version
(auth.test.tsx lines 357-377).  It strips a leading rtsp:// from
ip_address (the regex anchored at the start is modelled as dropping the
7-character prefix) and then always constructs the URL from parts,
appending port and path. -/
def getFullRtspUrlV2 (c : Camera) : String :=
  let cleanIp :=
    if c.ip_address ≠ "" ∧ jsStartsWith c.ip_address "rtsp://" then
      jsDrop c.ip_address 7
    else c.ip_address
  "rtsp://" ++ authSegment c ++ cleanIp ++ ":" ++ decString (effectivePort c)
    ++ effectivePath c

/-! ## Stream registry and route handler

Mirrors GET of src/app/api/stream/[id]/route.ts.  The module-global
activeStreams : Map of stream id to { ffmpeg, hlsUrl, camera, startTime }
is embedded as an association list; the ffmpeg ChildProcess handle is
reduced to the two observables the code and claims use: the killed flag
(set only by a kill() call) and the exit code the process reported when it
closed on its own (the route never reads it, which is the point of one of
the claims below). -/

/-- One value of the activeStreams map. -/
structure Entry where
  killed : Bool
  exited : Option Int
  hlsUrl : String
  camera : Camera
  startTime : Nat
deriving Repr, DecidableEq

/-- activeStreams.get. -/
def lookupStream : List (String × Entry) → String → Option Entry
  | [], _ => none
  | (k, v) :: rest, id => if k = id then some v else lookupStream rest id

/-- activeStreams.set. -/
def setStream : List (String × Entry) → String → Entry → List (String × Entry)
  | [], id, e => [(id, e)]
  | (k, v) :: rest, id, e =>
    if k = id then (id, e) :: rest else (k, v) :: setStream rest id e

/-- activeStreams.delete. -/
def deleteStream : List (String × Entry) → String → List (String × Entry)
  | [], _ => []
  | (k, v) :: rest, id =>
    if k = id then deleteStream rest id else (k, v) :: deleteStream rest id

/-- verifyToken (route.ts lines 23-35): null on a missing header or one not
starting with Bearer and a space; otherwise the JWT is verified.  The
verification itself (jwt.verify against the secret) is an oracle passed in
as a function from token to the optional decoded user id. -/
def verifyToken (verify : String → Option String) :
    Option String → Option String
  | none => none
  | some h => if jsStartsWith h "Bearer " then verify (jsDrop h 7) else none

/-- One poll step of waitForFiles (route.ts lines 292-317): ready is the
filesystem observation at the elapsed time in milliseconds — whether the
playlist exists, is nonempty, and at least one .ts segment exists.  The
loop checks readiness, then gives up once more than 15000 ms have elapsed,
else sleeps 300 ms.  The first argument is fuel bounding the recursion;
waitForFiles passes 60, more than the 52 polls the time bound permits, so
the fuel-exhaustion branch is unreachable. -/
def waitForFilesAux (ready : Nat → Bool) : Nat → Nat → Bool
  | 0, _ => false
  | fuel + 1, elapsed =>
    if ready elapsed then true
    else if 15000 < elapsed then false
    else waitForFilesAux ready fuel (elapsed + 300)

/-- waitForFiles (route.ts lines 292-317): poll from elapsed time 0. -/
def waitForFiles (ready : Nat → Bool) : Bool :=
  waitForFilesAux ready 60 0

/-- The responses the GET handler can produce, by status code. -/
inductive StreamResponse where
  /-- 401 Authentication required. -/
  | unauthorized : StreamResponse
  /-- 500 FFmpeg not available on server. -/
  | ffmpegUnavailable : StreamResponse
  /-- 404 Camera not found or access denied. -/
  | cameraNotFound : StreamResponse
  /-- 200 with the stored hlsUrl of an existing stream. -/
  | activeExisting : String → StreamResponse
  /-- 400 Cannot connect to camera stream. -/
  | connectFailed : StreamResponse
  /-- 504 Timed out waiting for stream to start. -/
  | timedOut : StreamResponse
  /-- 200 with the hlsUrl of a freshly started stream. -/
  | activeNew : String → StreamResponse
deriving Repr, DecidableEq

/-- The observable outcome of one GET request: the response, the registry
afterwards, which externally-visible stages ran, and whether an HLS
transcoder was spawned (some b records a spawn whose process has killed
flag b once the request finishes). -/
structure GetResult where
  response : StreamResponse
  registry : List (String × Entry)
  checkedFfmpeg : Bool
  dbLookup : Bool
  probeRun : Bool
  transcoder : Option Bool
deriving Repr, DecidableEq

/-- The environment a GET request runs against: the JWT verification
oracle, availability of the ffmpeg binary, the camera-by-id-and-user
database lookup result, the outcome of the ffmpeg connection probe for a
given RTSP url, the filesystem readiness observation over time, and the
clock at the start of the request. -/
structure Env where
  verify : String → Option String
  ffmpegAvailable : Bool
  camera : Option Camera
  connectionTest : String → Bool
  readyAt : Nat → Bool
  now : Nat

/-- The fresh-start tail of the GET handler (route.ts lines 247-330):
resolve the pull url, run the connection probe (which itself spawns a
short-lived ffmpeg test process — recorded in probeRun), and on success
spawn the transcoder, insert the session, and poll for readiness; on
timeout the transcoder is killed and the session deleted. -/
def startFresh (env : Env) (st : List (String × Entry)) (id : String)
    (cam : Camera) : GetResult :=
  let rtspUrl := getFullRtspUrl cam
  if env.connectionTest rtspUrl = false then
    { response := .connectFailed, registry := st, checkedFfmpeg := true
      dbLookup := true, probeRun := true, transcoder := none }
  else
    let hlsUrl := "/api/media/live/" ++ id ++ "/index.m3u8"
    let st1 := setStream st id
      { killed := false, exited := none, hlsUrl := hlsUrl, camera := cam
        startTime := env.now }
    if waitForFiles env.readyAt then
      { response := .activeNew hlsUrl, registry := st1, checkedFfmpeg := true
        dbLookup := true, probeRun := true, transcoder := some false }
    else
      { response := .timedOut, registry := deleteStream st1 id
        checkedFfmpeg := true, dbLookup := true, probeRun := true
        transcoder := some true }

/-- GET of src/app/api/stream/[id]/route.ts: verify the JWT (401 if the
decoded user id is absent or falsy), check the ffmpeg binary (500 if
missing), look the camera up scoped to the user (404 if absent), and if
the registry holds an entry whose process has not been killed, return its
stored url with the registry untouched; otherwise fall through to the
fresh start. -/
def getHandler (env : Env) (st : List (String × Entry)) (id : String)
    (authHeader : Option String) : GetResult :=
  match verifyToken env.verify authHeader with
  | none =>
    { response := .unauthorized, registry := st, checkedFfmpeg := false
      dbLookup := false, probeRun := false, transcoder := none }
  | some uid =>
    if uid = "" then
      { response := .unauthorized, registry := st, checkedFfmpeg := false
        dbLookup := false, probeRun := false, transcoder := none }
    else if env.ffmpegAvailable = false then
      { response := .ffmpegUnavailable, registry := st, checkedFfmpeg := true
        dbLookup := false, probeRun := false, transcoder := none }
    else
      match env.camera with
      | none =>
        { response := .cameraNotFound, registry := st, checkedFfmpeg := true
          dbLookup := true, probeRun := false, transcoder := none }
      | some cam =>
        match lookupStream st id with
        | some e =>
          if e.killed = false then
            { response := .activeExisting e.hlsUrl, registry := st
              checkedFfmpeg := true, dbLookup := true, probeRun := false
              transcoder := none }
          else startFresh env st id cam
        | none => startFresh env st id cam

/-- The ffmpeg close-event handler (route.ts lines 185-194): it only logs
the exit code and the collected stderr; it performs no registry mutation,
records no error on the session, and triggers no restart.  Its effect on
the registry is therefore the identity. -/
def ffmpegOnClose (st : List (String × Entry)) (_id : String)
    (_code : Int) : List (String × Entry) :=
  st

/-! ## Media delivery gateway

Mirrors GET of the media route (src/unnamed/part_002).  The request's
catch-all path arrives as a list of decoded segments; the code joins them
with "/", joins the result onto the media directory with Node's path.join
(which normalizes "." and ".." segments), then gates on
fullPath.startsWith(mediaDir) before checking existence and reading the
file.  process.cwd() is abstracted as the fixed absolute directory /app;
nothing below depends on its value. -/

/-- Node path normalization at the segment level for an absolute path:
empty and "." segments vanish, ".." pops the previous segment (or vanishes
at the root). -/
def normalizeSegs (segs : List String) : List String :=
  segs.foldl
    (fun acc s =>
      if s = "" ∨ s = "." then acc
      else if s = ".." then acc.dropLast
      else acc ++ [s])
    []

/-- Render an absolute path from its segments the way Node prints the
result of path.join: a leading slash and slash-separated segments. -/
def renderPath : List String → String
  | [] => ""
  | s :: rest => "/" ++ s ++ renderPath rest

/-- The basename of a rendered path: the characters after the last '/'. -/
def lastComponent (l : List Char) : List Char :=
  (l.reverse.takeWhile (fun c => c ≠ '/')).reverse

/-- Node path.extname on a basename: the last '.'-suffix, empty for a
dotfile or a name with no dot. -/
def extOfBase (base : List Char) : List Char :=
  if ('.' ∈ base.drop 1) then
    '.' :: (base.reverse.takeWhile (fun c => c ≠ '.')).reverse
  else []

/-- path.extname of the full path, lowercased as in the route. -/
def extname (s : String) : String :=
  ⟨(extOfBase (lastComponent s.data)).map Char.toLower⟩

/-- The content-type switch of the media route: m3u8 playlist, ts segment,
mp4, and the binary fallback. -/
def contentTypeFor (fullPath : String) : String :=
  let ext := extname fullPath
  if ext = ".m3u8" then "application/vnd.apple.mpegurl"
  else if ext = ".ts" then "video/mp2t"
  else if ext = ".mp4" then "video/mp4"
  else "application/octet-stream"

/-- The media directory path.join(process.cwd(), "media", "live") as
segments, with cwd abstracted as /app. -/
def mediaRootSegs : List String := ["app", "media", "live"]

/-- The observable outcomes of the media route. -/
inductive MediaResponse where
  /-- 400 Invalid file path. -/
  | invalidPath : MediaResponse
  /-- 404 File not found. -/
  | notFound : MediaResponse
  /-- 200 with the file's bytes and the given content type. -/
  | ok : String → MediaResponse
deriving Repr, DecidableEq

/-- The full resolved path of a media request: path.join of the media
directory and the joined request segments, rendered as a string. -/
def resolvedMediaPath (segs : List String) : String :=
  renderPath (normalizeSegs (mediaRootSegs ++ segs))

/-- GET of the media route: resolve the requested path under the media
directory, reject with 400 when the resolved string does not start with
the media directory string, answer 404 when no file exists at the resolved
path (the filesystem is abstracted as the list of existing files' rendered
absolute paths), and otherwise serve the file with the extension-derived
content type. -/
def mediaGET (fsFiles : List String) (segs : List String) : MediaResponse :=
  let fullPath := resolvedMediaPath segs
  if jsStartsWith fullPath (renderPath mediaRootSegs) = false then
    .invalidPath
  else if fsFiles.contains fullPath = false then
    .notFound
  else
    .ok (contentTypeFor fullPath)

/-! ## Two concurrent GET requests

The route handler's registry read (activeStreams.get, route.ts line 237)
and its spawn-plus-insert (startFFmpeg and activeStreams.set, route.ts
lines 278-286) are separated by awaited asynchronous operations (the
ffmpeg availability check, the database lookup, and the eight-second
connection probe), so on the single-threaded event loop another request
for the same id can run its own read in between.  The model gives each of
two requests for the same unseen stream id two atomic steps — the lookup,
then (on a miss) the spawn-plus-insert — and interleaves them under an
explicit schedule. -/

/-- Where a request stands: before its registry lookup, before its
spawn-plus-insert (after a lookup miss), or finished (the flag records
whether it reused an existing live session). -/
inductive ReqPhase where
  | toCheck : ReqPhase
  | toStart : ReqPhase
  | finished : Bool → ReqPhase
deriving Repr, DecidableEq

/-- The shared state of the two interleaved requests: the registry, each
request's phase, and how many transcoder processes have been spawned. -/
structure ConcState where
  reg : List (String × Entry)
  p1 : ReqPhase
  p2 : ReqPhase
  spawns : Nat
deriving Repr, DecidableEq

/-- The fixed camera used by the interleaving model. -/
def concCamera : Camera :=
  { ip_address := "10.0.0.5", camera_type := "hikvision", username := ""
    password := "", rtsp_port := 554, rtsp_path := "/stream" }

/-- The registry entry a fresh start inserts for stream cam1. -/
def concEntry : Entry :=
  { killed := false, exited := none
    hlsUrl := "/api/media/live/cam1/index.m3u8", camera := concCamera
    startTime := 0 }

/-- One atomic step of a single request for stream cam1: the lookup
(route.ts lines 237-245, moving to reuse on a live hit and to the start
step otherwise) or the spawn-plus-insert (route.ts lines 278-286). -/
def reqStep (reg : List (String × Entry)) (ph : ReqPhase) (spawns : Nat) :
    ReqPhase × List (String × Entry) × Nat :=
  match ph with
  | .toCheck =>
    match lookupStream reg "cam1" with
    | some e =>
      if e.killed = false then (.finished true, reg, spawns)
      else (.toStart, reg, spawns)
    | none => (.toStart, reg, spawns)
  | .toStart =>
    (.finished false, setStream reg "cam1" concEntry, spawns + 1)
  | .finished r => (.finished r, reg, spawns)

/-- Advance one of the two requests by one atomic step: true picks the
first request, false the second. -/
def stepSys (s : ConcState) (first : Bool) : ConcState :=
  if first then
    let (p, reg, sp) := reqStep s.reg s.p1 s.spawns
    { reg := reg, p1 := p, p2 := s.p2, spawns := sp }
  else
    let (p, reg, sp) := reqStep s.reg s.p2 s.spawns
    { reg := reg, p1 := s.p1, p2 := p, spawns := sp }

/-- Run a schedule, each element naming which request steps next. -/
def runSched (sched : List Bool) (s : ConcState) : ConcState :=
  sched.foldl stepSys s

/-- Both requests begin before any session exists. -/
def concInit : ConcState :=
  { reg := [], p1 := .toCheck, p2 := .toCheck, spawns := 0 }

/-! ## Concrete fixtures

Concrete cameras, registry entries and environments used to instantiate the
theorems below on explicit inputs. -/

/-- A verification oracle accepting exactly the token tok as user u1. -/
def oracleVerify : String → Option String :=
  fun t => if t = "tok" then some "u1" else none

/-- A camera with credentials and no scheme in the address. -/
def camPlain : Camera :=
  { ip_address := "10.0.0.5", camera_type := "hikvision", username := "admin"
    password := "pw", rtsp_port := 0, rtsp_path := "" }

/-- A camera whose address is a full rtsp URL and which also carries
credentials. -/
def camSchemeCreds : Camera :=
  { ip_address := "rtsp://10.0.0.5/stream", camera_type := "hikvision"
    username := "admin", password := "pw", rtsp_port := 0, rtsp_path := "" }

/-- The same full-URL camera without a username. -/
def camSchemeNoUser : Camera :=
  { camSchemeCreds with username := "" }

/-- A creation payload with an empty address and every optional field
absent. -/
def emptyAddrInput : CameraInput :=
  { ip_address := "", camera_type := none, username := none, password := none
    rtsp_port := none, rtsp_path := none }

/-- A hikvision creation payload with no explicit path override. -/
def hikInput : CameraInput :=
  { ip_address := "10.0.0.5", camera_type := some "hikvision"
    username := none, password := none, rtsp_port := none, rtsp_path := none }

/-- A live registry entry for stream cam1: process not killed and not
exited. -/
def entryLive : Entry :=
  { killed := false, exited := none
    hlsUrl := "/api/media/live/cam1/index.m3u8", camera := concCamera
    startTime := 0 }

/-- A dead registry entry for stream cam1: the process exited on its own
with code 1, so kill() was never called and the killed flag is false. -/
def entryDead : Entry :=
  { killed := false, exited := some 1
    hlsUrl := "/api/media/live/cam1/index.m3u8", camera := concCamera
    startTime := 0 }

/-- A registry holding the live cam1 session. -/
def regLive : List (String × Entry) := [("cam1", entryLive)]

/-- A registry holding the dead cam1 session. -/
def regDead : List (String × Entry) := [("cam1", entryDead)]

/-- A benign environment: auth succeeds for tok, ffmpeg is present, the
camera lookup returns the fixture camera, the probe succeeds, the
filesystem never becomes ready. -/
def envBase : Env :=
  { verify := oracleVerify, ffmpegAvailable := true
    camera := some concCamera, connectionTest := fun _ => true
    readyAt := fun _ => false, now := 0 }

/-- The environment for the empty-address scenario: the camera is the
schema-defaulted empty-address document and the connection probe fails. -/
def envProbeFail : Env :=
  { envBase with
    camera := some (applySchemaDefaults emptyAddrInput)
    connectionTest := fun _ => false }

/-- The number of at-signs in a string, counting the credential separators
a URL contains. -/
def atSigns (s : String) : Nat :=
  s.data.count '@'

/-! ## Helper lemmas -/

theorem waitForFilesAux_eq_false (ready : Nat → Bool)
    (h : ∀ t, t ≤ 15300 → ready t = false) :
    ∀ fuel elapsed : Nat, elapsed ≤ 15300 → 15000 < elapsed + 300 * fuel →
      waitForFilesAux ready fuel elapsed = false := by
  intro fuel
  induction fuel with
  | zero => intro elapsed _ _; rfl
  | succ n ih =>
    intro elapsed h1 h2
    unfold waitForFilesAux
    rw [h elapsed h1]
    by_cases hlt : 15000 < elapsed
    · simp [hlt]
    · simp only [Bool.false_eq_true, if_false, if_neg hlt]
      exact ih (elapsed + 300) (by omega) (by omega)

/-- When the readiness observation is false at every instant the poll loop
can visit, waitForFiles reports failure. -/
theorem waitForFiles_eq_false (ready : Nat → Bool)
    (h : ∀ t, t ≤ 15300 → ready t = false) :
    waitForFiles ready = false :=
  waitForFilesAux_eq_false ready h 60 0 (by omega) (by omega)

theorem lookupStream_deleteStream (m : List (String × Entry)) (id : String) :
    lookupStream (deleteStream m id) id = none := by
  induction m with
  | nil => rfl
  | cons kv rest ih =>
    obtain ⟨k, v⟩ := kv
    by_cases hk : k = id
    · simp [deleteStream, hk, ih]
    · simp [deleteStream, lookupStream, hk, ih]

theorem deleteStream_setStream (m : List (String × Entry)) (id : String)
    (e : Entry) :
    deleteStream (setStream m id e) id = deleteStream m id := by
  induction m with
  | nil => simp [setStream, deleteStream]
  | cons kv rest ih =>
    obtain ⟨k, v⟩ := kv
    by_cases hk : k = id
    · simp [setStream, deleteStream, hk]
    · simp [setStream, deleteStream, hk, ih]

theorem deleteStream_eq_self (m : List (String × Entry)) (id : String)
    (h : lookupStream m id = none) : deleteStream m id = m := by
  induction m with
  | nil => rfl
  | cons kv rest ih =>
    obtain ⟨k, v⟩ := kv
    by_cases hk : k = id
    · simp [lookupStream, hk] at h
    · simp only [lookupStream, if_neg hk] at h
      simp [deleteStream, hk, ih h]

theorem isPrefixOf_append_self {α : Type} [BEq α] [LawfulBEq α]
    (l t : List α) : l.isPrefixOf (l ++ t) = true := by
  induction l with
  | nil => simp [List.isPrefixOf]
  | cons a as ih => simp [List.isPrefixOf, ih]

theorem eq_append_of_isPrefixOf {α : Type} [BEq α] [LawfulBEq α] :
    ∀ {a b : List α}, a.isPrefixOf b = true → ∃ t, b = a ++ t
  | [], b, _ => ⟨b, rfl⟩
  | a :: as, [], h => by simp [List.isPrefixOf] at h
  | a :: as, b :: bs, h => by
    simp only [List.isPrefixOf, Bool.and_eq_true, beq_iff_eq] at h
    obtain ⟨rfl, h2⟩ := h
    obtain ⟨t, rfl⟩ := eq_append_of_isPrefixOf h2
    exact ⟨t, rfl⟩

theorem renderPath_data_append (a b : List String) :
    (renderPath (a ++ b)).data = (renderPath a).data ++ (renderPath b).data := by
  induction a with
  | nil => simp [renderPath]
  | cons s rest ih => simp [renderPath, String.data_append, ih]

/-- A rendered extension of a segment list starts, as a string, with the
rendering of the segment-list prefix. -/
theorem jsStartsWith_renderPath {root full : List String}
    (h : root.isPrefixOf full = true) :
    jsStartsWith (renderPath full) (renderPath root) = true := by
  obtain ⟨t, rfl⟩ := eq_append_of_isPrefixOf h
  unfold jsStartsWith
  rw [renderPath_data_append]
  exact isPrefixOf_append_self _ _

theorem ne_empty_of_starts_rtsp {s : String}
    (h : jsStartsWith s "rtsp://" = true) : s ≠ "" := by
  intro h'
  subst h'
  exact absurd h (by decide)

theorem digitChar_ne_at (n : Nat) : Nat.digitChar n ≠ '@' := by
  intro h
  rcases lt_or_ge n 16 with hl | hg
  · interval_cases n <;> simp [Nat.digitChar] at h
  · unfold Nat.digitChar at h
    iterate 16 rw [if_neg (by omega)] at h
    exact absurd h (by decide)

theorem at_not_mem_decDigitsAux : ∀ fuel n : Nat, '@' ∉ decDigitsAux fuel n := by
  intro fuel
  induction fuel with
  | zero =>
    intro n h
    simp [decDigitsAux] at h
  | succ m ih =>
    intro n h
    unfold decDigitsAux at h
    by_cases h10 : n < 10
    · rw [if_pos h10] at h
      simp only [List.mem_singleton] at h
      exact digitChar_ne_at n h.symm
    · rw [if_neg h10] at h
      rcases List.mem_append.mp h with h | h
      · exact ih _ h
      · simp only [List.mem_singleton] at h
        exact digitChar_ne_at _ h.symm

theorem atSigns_append (a b : String) :
    atSigns (a ++ b) = atSigns a + atSigns b := by
  simp [atSigns, String.data_append, List.count_append]

theorem atSigns_eq_zero {s : String} (h : '@' ∉ s.data) : atSigns s = 0 :=
  List.count_eq_zero.mpr h

theorem atSigns_decString (n : Nat) : atSigns (decString n) = 0 := by
  unfold atSigns decString
  exact List.count_eq_zero.mpr (at_not_mem_decDigitsAux _ _)

theorem at_not_mem_defaultPath (c : Camera) (h : '@' ∉ c.rtsp_path.data) :
    '@' ∉ (getDefaultRtspPath c).data := by
  unfold getDefaultRtspPath
  split
  · decide
  · decide
  · decide
  · decide
  · split
    · decide
    · exact h

theorem at_not_mem_effectivePath (c : Camera) (h : '@' ∉ c.rtsp_path.data) :
    '@' ∉ (effectivePath c).data := by
  unfold effectivePath
  split
  · exact at_not_mem_defaultPath c h
  · exact h

/-! ## Claims -/

/-- C1: if the active-streams map already holds a session for a stream id
whose transcoder process is live (not killed and not exited), a further
start request for that id returns that existing session's manifest URL
unchanged, spawns no second transcoder process, and leaves the registry
unmodified. -/
theorem C1_start_idempotent_on_live_session
    (env : Env) (st : List (String × Entry)) (id : String)
    (hdr : Option String) (uid : String) (cam : Camera) (e : Entry)
    (hauth : verifyToken env.verify hdr = some uid) (huid : uid ≠ "")
    (hff : env.ffmpegAvailable = true) (hcam : env.camera = some cam)
    (hlook : lookupStream st id = some e)
    (hlive : e.killed = false ∧ e.exited = none) :
    getHandler env st id hdr =
      { response := .activeExisting e.hlsUrl, registry := st
        checkedFfmpeg := true, dbLookup := true, probeRun := false
        transcoder := none } := by
  unfold getHandler
  rw [hauth]
  simp [huid, hff, hcam, hlook, hlive.1]

/-- C1 witness: the theorem applied to the live cam1 session in the benign
environment. -/
theorem C1_witness :
    getHandler envBase regLive "cam1" (some "Bearer tok") =
      { response := .activeExisting "/api/media/live/cam1/index.m3u8"
        registry := regLive, checkedFfmpeg := true, dbLookup := true
        probeRun := false, transcoder := none } :=
  C1_start_idempotent_on_live_session envBase regLive "cam1"
    (some "Bearer tok") "u1" concCamera entryLive (by decide) (by decide)
    rfl rfl (by decide) (by decide)

/-- C3: when the readiness observation fails at every instant the poll loop
can visit, a fresh start returns the timeout response, the spawned
transcoder process ends up killed, and the session is no longer present in
the registry. -/
theorem C3_timeout_kills_process_and_clears_registry
    (env : Env) (st : List (String × Entry)) (id : String)
    (hdr : Option String) (uid : String) (cam : Camera)
    (hauth : verifyToken env.verify hdr = some uid) (huid : uid ≠ "")
    (hff : env.ffmpegAvailable = true) (hcam : env.camera = some cam)
    (hlook : lookupStream st id = none)
    (hconn : env.connectionTest (getFullRtspUrl cam) = true)
    (hnever : ∀ t, t ≤ 15300 → env.readyAt t = false) :
    getHandler env st id hdr =
      { response := .timedOut, registry := st, checkedFfmpeg := true
        dbLookup := true, probeRun := true, transcoder := some true } ∧
    lookupStream (getHandler env st id hdr).registry id = none := by
  have hw : waitForFiles env.readyAt = false := waitForFiles_eq_false _ hnever
  have hmain : getHandler env st id hdr =
      { response := .timedOut, registry := st, checkedFfmpeg := true
        dbLookup := true, probeRun := true, transcoder := some true } := by
    unfold getHandler startFresh
    rw [hauth]
    simp only [huid, hff, hcam, hlook, hconn, hw]
    simp [huid, deleteStream_setStream, deleteStream_eq_self st id hlook]
  refine ⟨hmain, ?_⟩
  rw [hmain]
  exact hlook

/-- C3 witness: the theorem applied to the benign environment whose
filesystem never becomes ready, starting from an empty registry. -/
theorem C3_witness :
    getHandler envBase [] "cam1" (some "Bearer tok") =
      { response := .timedOut, registry := [], checkedFfmpeg := true
        dbLookup := true, probeRun := true, transcoder := some true } :=
  (C3_timeout_kills_process_and_clears_registry envBase [] "cam1"
    (some "Bearer tok") "u1" concCamera (by decide) (by decide) rfl rfl rfl
    rfl (fun t _ => rfl)).1

/-- C8: the close handler of the transcoder process performs no registry
mutation (no Failed transition, no recorded error), and a subsequent start
request for a session whose process exited on its own with code 1 — so its
killed flag is still false — is answered with the dead session's URL as an
active stream. -/
theorem C8_dead_session_reported_active :
    ffmpegOnClose regDead "cam1" 1 = regDead ∧
    getHandler envBase regDead "cam1" (some "Bearer tok") =
      { response := .activeExisting "/api/media/live/cam1/index.m3u8"
        registry := regDead, checkedFfmpeg := true, dbLookup := true
        probeRun := false, transcoder := none } := by
  constructor
  · rfl
  · decide

/-- C9 counterexample: under the interleaving in which both requests run
their registry lookup before either runs its spawn-plus-insert — possible
because the two steps are separated by awaited asynchronous operations —
two transcoder processes are spawned for the same unseen stream id. -/
theorem C9_counterexample :
    (runSched [true, false, true, false] concInit).spawns = 2 := by
  decide

/-- C9 amended: when the two requests are serialized, in either order,
exactly one transcoder process is spawned and the second request finishes
by reusing the first one's session. -/
theorem C9_serialized_single_spawn :
    ((runSched [true, true, false, false] concInit).spawns = 1 ∧
      (runSched [true, true, false, false] concInit).p2 =
        ReqPhase.finished true) ∧
    ((runSched [false, false, true, true] concInit).spawns = 1 ∧
      (runSched [false, false, true, true] concInit).p1 =
        ReqPhase.finished true) := by
  decide

/-- C10: a request whose Authorization header is missing, does not carry a
Bearer prefix, or fails JWT verification is answered 401 with the registry
unchanged, before the ffmpeg binary check, the camera lookup, the probe, or
any spawn. -/
theorem C10_unauthorized_before_any_work
    (env : Env) (st : List (String × Entry)) (id : String)
    (hdr : Option String)
    (h : hdr = none ∨
      (∃ s, hdr = some s ∧ jsStartsWith s "Bearer " = false) ∨
      (∃ s, hdr = some s ∧ env.verify (jsDrop s 7) = none)) :
    getHandler env st id hdr =
      { response := .unauthorized, registry := st, checkedFfmpeg := false
        dbLookup := false, probeRun := false, transcoder := none } := by
  have hv : verifyToken env.verify hdr = none := by
    rcases h with rfl | ⟨s, rfl, hs⟩ | ⟨s, rfl, hs⟩
    · rfl
    · simp [verifyToken, hs]
    · simp only [verifyToken]
      split
      · exact hs
      · rfl
  unfold getHandler
  rw [hv]

/-- C10 witness: the theorem applied to a request with no Authorization
header. -/
theorem C10_witness :
    getHandler envBase regLive "cam1" none =
      { response := .unauthorized, registry := regLive
        checkedFfmpeg := false, dbLookup := false, probeRun := false
        transcoder := none } :=
  C10_unauthorized_before_any_work envBase regLive "cam1" none (Or.inl rfl)

/-- C2 counterexample: a request for stream cam1 whose path contains a
parent-directory traversal segment escaping cam1's artifact directory into
cam2's is not rejected as InvalidPath; the gateway resolves it into cam2's
directory and serves the file there. -/
theorem C2_counterexample :
    mediaGET ["/app/media/live/cam2/seg.ts"]
        ["cam1", "..", "cam2", "seg.ts"] =
      MediaResponse.ok "video/mp2t" := by
  decide

/-- C2 amended: the gateway's containment check is a string-prefix test of
the normalized resolved path against the shared media root, not against the
requesting stream's directory.  A request is rejected as InvalidPath exactly
when its resolved path fails that string-prefix test; whenever the test
passes — including for a sibling directory whose name merely extends the
root string — the request is never rejected, a missing file yields NotFound
and an existing one is served with its extension-derived content type.  A
resolved path that extends the media root segment-wise always passes the
string-prefix test. -/
theorem C2_prefix_check_semantics (fs : List String) (segs : List String) :
    (jsStartsWith (resolvedMediaPath segs) (renderPath mediaRootSegs) =
        true →
      mediaGET fs segs ≠ MediaResponse.invalidPath ∧
      (fs.contains (resolvedMediaPath segs) = false →
        mediaGET fs segs = MediaResponse.notFound) ∧
      (fs.contains (resolvedMediaPath segs) = true →
        mediaGET fs segs =
          MediaResponse.ok (contentTypeFor (resolvedMediaPath segs)))) ∧
    (jsStartsWith (resolvedMediaPath segs) (renderPath mediaRootSegs) =
        false →
      mediaGET fs segs = MediaResponse.invalidPath) ∧
    (mediaRootSegs.isPrefixOf (normalizeSegs (mediaRootSegs ++ segs)) =
        true →
      jsStartsWith (resolvedMediaPath segs) (renderPath mediaRootSegs) =
        true) := by
  refine ⟨?_, ?_, ?_⟩
  · intro hsw
    have hmain : mediaGET fs segs =
        (if fs.contains (resolvedMediaPath segs) = false then
          MediaResponse.notFound
        else MediaResponse.ok (contentTypeFor (resolvedMediaPath segs))) := by
      simp [mediaGET, hsw]
    refine ⟨?_, ?_, ?_⟩
    · intro hbad
      rw [hmain] at hbad
      by_cases hex : fs.contains (resolvedMediaPath segs) = false
      · rw [if_pos hex] at hbad
        simp at hbad
      · rw [if_neg hex] at hbad
        simp at hbad
    · intro hmiss
      rw [hmain, if_pos hmiss]
    · intro hhit
      rw [hmain, if_neg (by rw [hhit]; decide)]
  · intro hout
    simp [mediaGET, hout]
  · intro hin
    unfold resolvedMediaPath
    exact jsStartsWith_renderPath hin

/-- C2 witness: the amended theorem applied first to a traversal landing in
a sibling directory whose name merely extends the media root string — the
string-prefix test passes and the file outside the root is served — and
second to an in-directory request for a missing file, which yields the
distinct NotFound result. -/
theorem C2_witness :
    mediaGET ["/app/media/live-archive/x.ts"]
        ["..", "live-archive", "x.ts"] =
      MediaResponse.ok "video/mp2t" ∧
    mediaGET [] ["cam1", "index.m3u8"] = MediaResponse.notFound :=
  ⟨((C2_prefix_check_semantics ["/app/media/live-archive/x.ts"]
      ["..", "live-archive", "x.ts"]).1 (by decide)).2.2 (by decide),
   ((C2_prefix_check_semantics [] ["cam1", "index.m3u8"]).1
      (by decide)).2.1 (by decide)⟩

/-- C4 counterexample: a camera whose address is already a full rtsp URL
and which also carries a username and a password does not get its address
back unchanged — the resolver injects the credential segment after the
scheme. -/
theorem C4_counterexample :
    jsStartsWith camSchemeCreds.ip_address "rtsp://" = true ∧
    getFullRtspUrl camSchemeCreds ≠ camSchemeCreds.ip_address ∧
    getFullRtspUrl camSchemeCreds = "rtsp://admin:pw@10.0.0.5/stream" := by
  decide

/-- C4 amended: an address that already includes the rtsp scheme is
returned byte-for-byte unchanged exactly when username and password are not
both set; when both are set the resolver injects the user:pass@ credential
segment right after the scheme, producing a URL different from the address;
and the second recorded resolver version always reconstructs the URL from
the scheme-stripped address, appending port and path. -/
theorem C4_scheme_address_unchanged_iff_not_both_credentials (c : Camera)
    (hscheme : jsStartsWith c.ip_address "rtsp://" = true) :
    ((c.username = "" ∨ c.password = "") →
      getFullRtspUrl c = c.ip_address) ∧
    ((c.username ≠ "" ∧ c.password ≠ "") →
      getFullRtspUrl c =
        "rtsp://" ++ (c.username ++ ":" ++ c.password ++ "@")
          ++ jsDrop c.ip_address 7 ∧
      getFullRtspUrl c ≠ c.ip_address) ∧
    getFullRtspUrlV2 c =
      "rtsp://" ++ authSegment c ++ jsDrop c.ip_address 7 ++ ":"
        ++ decString (effectivePort c) ++ effectivePath c := by
  have hne : c.ip_address ≠ "" := ne_empty_of_starts_rtsp hscheme
  have hip7 : 7 ≤ c.ip_address.data.length := by
    unfold jsStartsWith at hscheme
    obtain ⟨t, ht⟩ := eq_append_of_isPrefixOf hscheme
    rw [ht, List.length_append]
    have h7 : ("rtsp://" : String).data.length = 7 := rfl
    omega
  refine ⟨?_, ?_, ?_⟩
  · intro hcred
    have hauth : authSegment c = "" := by
      unfold authSegment
      rcases hcred with h | h <;> simp [h]
    unfold getFullRtspUrl
    rw [hauth]
    simp [hne, hscheme]
  · intro hboth
    have hauth : authSegment c =
        c.username ++ ":" ++ c.password ++ "@" := by
      unfold authSegment
      rw [if_pos hboth]
    have hane : c.username ++ ":" ++ c.password ++ "@" ≠ "" := by
      intro h0
      have hl := congrArg (fun s => s.data.length) h0
      simp only [String.data_append, List.length_append, List.length_cons,
        List.length_nil] at hl
      omega
    have hurl : getFullRtspUrl c =
        "rtsp://" ++ (c.username ++ ":" ++ c.password ++ "@")
          ++ jsDrop c.ip_address 7 := by
      unfold getFullRtspUrl
      rw [hauth, if_pos ⟨hne, hscheme⟩, if_pos hane]
    refine ⟨hurl, ?_⟩
    intro heq
    rw [hurl] at heq
    have hmk : ∀ l : List Char, (String.mk l).data = l := fun _ => rfl
    have hl := congrArg (fun s => s.data.length) heq
    simp only [String.data_append, List.length_append, List.length_cons,
      List.length_nil, jsDrop, hmk, List.length_drop] at hl
    omega
  · unfold getFullRtspUrlV2
    rw [if_pos ⟨hne, hscheme⟩]

/-- C4 witness: the amended theorem applied to a full-URL camera with no
username (address unchanged) and to the same address with both credentials
set (credential segment injected, address mutated). -/
theorem C4_witness :
    getFullRtspUrl camSchemeNoUser = camSchemeNoUser.ip_address ∧
    getFullRtspUrl camSchemeCreds =
      "rtsp://" ++ ("admin" ++ ":" ++ "pw" ++ "@")
        ++ jsDrop camSchemeCreds.ip_address 7 ∧
    getFullRtspUrl camSchemeCreds ≠ camSchemeCreds.ip_address :=
  ⟨(C4_scheme_address_unchanged_iff_not_both_credentials camSchemeNoUser
      (by decide)).1 (Or.inl rfl),
   (C4_scheme_address_unchanged_iff_not_both_credentials camSchemeCreds
      (by decide)).2.1 (by decide)⟩

/-- C5 counterexample: resolving the schema-defaulted camera document
created from an empty address does not fail — both recorded resolver
versions return the degenerate URL with default port and path. -/
theorem C5_counterexample :
    (applySchemaDefaults emptyAddrInput).ip_address = "" ∧
    getFullRtspUrlV2 (applySchemaDefaults emptyAddrInput) =
      "rtsp://:554/stream" ∧
    getFullRtspUrl (applySchemaDefaults emptyAddrInput) =
      "rtsp://:554/stream" := by
  decide

/-- C5 amended: a start request for an empty-address camera is rejected
when the ffmpeg connection probe fails, with HTTP 400, no transcoder
spawned, and the registry unchanged (the probe itself runs). -/
theorem C5_empty_address_fails_probe_without_spawn
    (env : Env) (st : List (String × Entry)) (id : String)
    (hdr : Option String) (uid : String) (cam : Camera)
    (hauth : verifyToken env.verify hdr = some uid) (huid : uid ≠ "")
    (hff : env.ffmpegAvailable = true) (hcam : env.camera = some cam)
    (_hempty : cam.ip_address = "")
    (hlook : lookupStream st id = none)
    (hconn : env.connectionTest (getFullRtspUrl cam) = false) :
    getHandler env st id hdr =
      { response := .connectFailed, registry := st, checkedFfmpeg := true
        dbLookup := true, probeRun := true, transcoder := none } := by
  unfold getHandler startFresh
  rw [hauth]
  simp [huid, hff, hcam, hlook, hconn]

/-- C5 witness: the theorem applied to the failing-probe environment with
the schema-defaulted empty-address camera. -/
theorem C5_witness :
    getHandler envProbeFail [] "cam1" (some "Bearer tok") =
      { response := .connectFailed, registry := [], checkedFfmpeg := true
        dbLookup := true, probeRun := true, transcoder := none } :=
  C5_empty_address_fails_probe_without_spawn envProbeFail [] "cam1"
    (some "Bearer tok") "u1" (applySchemaDefaults emptyAddrInput)
    (by decide) (by decide) rfl rfl rfl rfl rfl

/-- C6 counterexample: a hikvision camera created without any explicit
path override receives the schema default /stream and resolves with that
path, although the vendor lookup table maps hikvision to the distinct
default /Streaming/Channels/101. -/
theorem C6_counterexample :
    hikInput.rtsp_path = none ∧
    getFullRtspUrl (applySchemaDefaults hikInput) =
      "rtsp://10.0.0.5:554/stream" ∧
    getDefaultRtspPath (applySchemaDefaults hikInput) =
      "/Streaming/Channels/101" := by
  decide

/-- C6 amended: the vendor lookup table is consulted only when the stored
path is empty; a document created without the field gets the schema
default /stream and resolves with that path whatever the vendor tag, a
non-empty explicit override always wins, and only an explicitly empty
override reaches the vendor table. -/
theorem C6_schema_default_shadows_vendor_table (d : CameraInput)
    (hscheme :
      jsStartsWith (applySchemaDefaults d).ip_address "rtsp://" = false) :
    (d.rtsp_path = none →
      getFullRtspUrl (applySchemaDefaults d) =
        "rtsp://" ++ authSegment (applySchemaDefaults d) ++ d.ip_address
          ++ ":" ++ decString (effectivePort (applySchemaDefaults d))
          ++ "/stream") ∧
    (∀ p : String, d.rtsp_path = some p → p ≠ "" →
      getFullRtspUrl (applySchemaDefaults d) =
        "rtsp://" ++ authSegment (applySchemaDefaults d) ++ d.ip_address
          ++ ":" ++ decString (effectivePort (applySchemaDefaults d))
          ++ p) ∧
    (d.rtsp_path = some "" →
      getFullRtspUrl (applySchemaDefaults d) =
        "rtsp://" ++ authSegment (applySchemaDefaults d) ++ d.ip_address
          ++ ":" ++ decString (effectivePort (applySchemaDefaults d))
          ++ getDefaultRtspPath (applySchemaDefaults d)) := by
  have hip : (applySchemaDefaults d).ip_address = d.ip_address := rfl
  have hscheme' : jsStartsWith d.ip_address "rtsp://" = false := hscheme
  refine ⟨?_, ?_, ?_⟩
  · intro hnone
    have hpath : (applySchemaDefaults d).rtsp_path = "/stream" := by
      simp [applySchemaDefaults, hnone]
    unfold getFullRtspUrl effectivePath
    simp [hscheme, hscheme', hpath, hip]
  · intro p hsome hp
    have hpath : (applySchemaDefaults d).rtsp_path = p := by
      simp [applySchemaDefaults, hsome]
    unfold getFullRtspUrl effectivePath
    simp [hscheme, hscheme', hpath, hip, hp]
  · intro hsomeEmpty
    have hpath : (applySchemaDefaults d).rtsp_path = "" := by
      simp [applySchemaDefaults, hsomeEmpty]
    unfold getFullRtspUrl effectivePath
    simp [hscheme, hscheme', hpath, hip]

/-- C6 witness: the amended theorem applied to the hikvision payload with
no path override. -/
theorem C6_witness :
    getFullRtspUrl (applySchemaDefaults hikInput) =
      "rtsp://" ++ authSegment (applySchemaDefaults hikInput)
        ++ hikInput.ip_address ++ ":"
        ++ decString (effectivePort (applySchemaDefaults hikInput))
        ++ "/stream" :=
  (C6_schema_default_shadows_vendor_table hikInput (by decide)).1 rfl

/-- C7: for a descriptor resolved by URL construction whose fields carry
no at-sign of their own, the resolved URL contains exactly one at-sign
(one embedded credential segment) when both username and password are set
and none otherwise. -/
theorem C7_credentials_embedded_iff_both_present (c : Camera)
    (hurl : jsStartsWith c.ip_address "rtsp://" = false)
    (hip : '@' ∉ c.ip_address.data)
    (hu : '@' ∉ c.username.data)
    (hp : '@' ∉ c.password.data)
    (hpath : '@' ∉ c.rtsp_path.data) :
    ((c.username ≠ "" ∧ c.password ≠ "") →
      atSigns (getFullRtspUrl c) = 1) ∧
    (¬(c.username ≠ "" ∧ c.password ≠ "") →
      atSigns (getFullRtspUrl c) = 0) := by
  have hguard : ¬(c.ip_address ≠ "" ∧
      jsStartsWith c.ip_address "rtsp://" = true) := by
    rintro ⟨-, hs⟩
    rw [hurl] at hs
    exact absurd hs (by decide)
  have hepath : atSigns (effectivePath c) = 0 :=
    atSigns_eq_zero (at_not_mem_effectivePath c hpath)
  have hrtsp : atSigns "rtsp://" = 0 := by decide
  have hcolon : atSigns ":" = 0 := by decide
  have hatat : atSigns "@" = 1 := by decide
  have hipz : atSigns c.ip_address = 0 := atSigns_eq_zero hip
  have huz : atSigns c.username = 0 := atSigns_eq_zero hu
  have hpz : atSigns c.password = 0 := atSigns_eq_zero hp
  constructor
  · intro hboth
    have hauth : authSegment c =
        c.username ++ ":" ++ c.password ++ "@" := by
      unfold authSegment
      rw [if_pos hboth]
    unfold getFullRtspUrl
    rw [if_neg hguard, hauth]
    simp [atSigns_append, atSigns_decString, hepath, hrtsp, hcolon, hatat,
      hipz, huz, hpz]
  · intro hnot
    have hauth : authSegment c = "" := by
      unfold authSegment
      rw [if_neg hnot]
    have hemp : atSigns "" = 0 := by decide
    unfold getFullRtspUrl
    rw [if_neg hguard, hauth]
    simp [atSigns_append, atSigns_decString, hepath, hrtsp, hcolon, hipz,
      hemp]

/-- C7 witness: the theorem applied to the credentialed plain-address
camera yields exactly one at-sign in the resolved URL. -/
theorem C7_witness :
    atSigns (getFullRtspUrl camPlain) = 1 :=
  (C7_credentials_embedded_iff_both_present camPlain (by decide) (by decide)
    (by decide) (by decide) (by decide)).1 (by decide)

end StreamSup
